import Mathlib

/-!
Shallow embedding of the Discord disputes bot (`src/bot.js`).  The file in the
repository is a concatenation of iterative versions of the bot separated by
document markers; the claims reference the first version (lines 1-493, namespace
`V1` below), the multi-guild version (lines 1073-2102, namespace `V3`) and the
last version (lines 2132-2730, namespace `V4`).

Modelling conventions, used consistently below:
* Discord snowflake ids, channel names, message contents are `String`s.
* A JS `Map` is a function `String → Option value`; a JS `Set` is a function
  `String → Bool`.  Keys absent from the map are `none` / `false`.
* Each event handler is a pure function from its inputs and the mutable state
  to the new state plus the list of platform API calls it performs, in order.
  An awaited API call is recorded in the effect list when it is attempted;
  boolean "outcome" parameters say whether the call (or a fetch) succeeded and
  drive the handler's control flow exactly as the try/catch structure of the
  source does.  Fetches (`channels.fetch`, `members.fetch`, ...) are modelled
  by outcome booleans plus the data they would return, and are not themselves
  recorded as effects.
* JS `a || b` on strings maps to `Option.getD` (a `null`/`undefined` value is
  `none`); the empty-string-is-falsy corner of JS never arises for the ids and
  role names involved.
-/

namespace DisputeBot

/-- `hay.includes(needle)` on strings, as used by `String.prototype.includes`. -/
def containsSub (hay needle : List Char) : Bool :=
  match hay with
  | [] => needle.isEmpty
  | _ :: t => needle.isPrefixOf hay || containsSub t needle

def strContains (hay needle : String) : Bool :=
  containsSub hay.toList needle.toList

/-- `/^post|^result/.test(name)`: the name starts with `post` or with `result`. -/
def startsWithStr (s p : String) : Bool :=
  p.toList.isPrefixOf s.toList

/-- `/\[.*\]/.test(name)`: some `[` occurs with a `]` somewhere after it. -/
def bracketTestChars (s : List Char) : Bool :=
  match s with
  | [] => false
  | c :: t => (c == '[' && t.contains ']') || bracketTestChars t

def strBracketTest (s : String) : Bool :=
  bracketTestChars s.toList

def isSlugAlnum (c : Char) : Bool :=
  ('a' ≤ c && c ≤ 'z') || ('0' ≤ c && c ≤ '9')

/-- `.replace(/[^a-z0-9]+/g, '-')` on an already lowercased string: every
maximal run of non-alphanumeric characters is collapsed to a single `-`. -/
def squashRuns (prevDash : Bool) (l : List Char) : List Char :=
  match l with
  | [] => []
  | c :: t =>
    if isSlugAlnum c then c :: squashRuns false t
    else if prevDash then squashRuns true t
    else '-' :: squashRuns true t

/-- `.replace(/^-+|-+$/g, '')`: strip leading and trailing dashes. -/
def trimDashes (l : List Char) : List Char :=
  ((l.dropWhile (fun c => c == '-')).reverse.dropWhile (fun c => c == '-')).reverse

/-- `const slug = s => s.toLowerCase().replace(/[^a-z0-9]+/g, '-').replace(/^-+|-+$/g, '')`. -/
def slug (s : String) : String :=
  String.mk (trimDashes (squashRuns false (s.toList.map Char.toLower)))

/-- The kind of a channel, the subset of discord.js `ChannelType` the bot
distinguishes. -/
inductive ChanKind where
  | guildText
  | publicThread
  | privateThread
  | dm
  | voice
  | category
  | forum
deriving DecidableEq, Repr

structure Channel where
  id : String
  name : String
  kind : ChanKind
deriving DecidableEq, Repr

/-- `findDecisionChannel(guild, countryA, countryB)` of version 1 (bot.js lines
76-84).  `chans` is the guild's channel cache in iteration order; a JS `null`
country is `none`.  `!countryA` is also true for an empty string, hence the
explicit emptiness test. -/
def findDecisionChannel (chans : List Channel) (countryA countryB : Option String) :
    Option Channel :=
  match countryA, countryB with
  | some ca, some cb =>
    if ca = "" ∨ cb = "" then none
    else
      let a := slug ca
      let b := slug cb
      let ms := chans.filter (fun c =>
        c.kind == ChanKind.guildText && strContains c.name a && strContains c.name b)
      match ms.find? (fun c => startsWithStr c.name ("post") || startsWithStr c.name ("result")) with
      | some c => some c
      | none => ms.head?
  | _, _ => none

/-- A role, as the bot sees it: `{ id: role.id, name: role.name }`. -/
structure RoleInfo where
  id : String
  name : String
deriving DecidableEq, Repr

/-- One attempted platform API call.  `removeThreadMember` additionally records
whether the call succeeded (its failure is always swallowed by the source). -/
inductive Effect where
  | createThread (hubChannelId threadName : String)
  | sendMsg (channelId content : String)
  | sendMsgWithFiles (channelId content : String) (files : List String)
  | dmUser (userId content : String)
  | replyMsg (messageId content : String)
  | deleteMsg (channelId messageId : String)
  | archiveThread (threadId : String)
  | lockThread (threadId : String)
  | removeThreadMember (threadId userId : String) (succeeded : Bool)
  | setThreadName (threadId newName : String)
  | interactionReply (content : String)
deriving DecidableEq, Repr

/-- A gateway message as the handlers inspect it.  `guildId = none` models
`message.guild === null`; `authorMemberRoles` is what
`guild.members.fetch(message.author.id)` would return for the author. -/
structure Msg where
  id : String
  url : String
  guildId : Option String
  channelId : String
  channelParentId : Option String
  channelIsThread : Bool
  channelIsDM : Bool
  authorId : String
  authorIsBot : Bool
  authorUsername : String
  authorGlobalName : Option String
  content : String
  mentionedRoles : List RoleInfo
  authorMemberRoles : List RoleInfo
  attachments : List String
deriving Repr

/-- `message.author.globalName || message.author.username`. -/
def displayName (m : Msg) : String :=
  m.authorGlobalName.getD m.authorUsername

/-- `messageMentionsRole` (v1 lines 60-62). -/
def messageMentionsRole (m : Msg) (roleId : String) : Bool :=
  m.mentionedRoles.any (fun r => r.id == roleId) ||
    strContains m.content ("<@&" ++ roleId ++ ">")

/-- `getMemberCountry` (v1 lines 64-68): the first cached role of the member
whose name matches `/\[.*\]/`; the `{id:null,name:null}` result is `none`. -/
def getMemberCountry (roles : List RoleInfo) : Option RoleInfo :=
  roles.find? (fun r => strBracketTest r.name)

/-- `getOpponentCountryFromMessage` (v1 lines 70-74): the first mentioned role
with a bracketed name that differs from `excludeName` (no exclusion when the
player has no country role). -/
def getOpponentCountryFromMessage (mentioned : List RoleInfo) (excludeName : Option String) :
    Option RoleInfo :=
  mentioned.find? (fun r =>
    strBracketTest r.name &&
      (match excludeName with
       | none => true
       | some n => r.name != n))

/-- Point update of a map-as-function. -/
def upd {α : Type} (f : String → Option α) (k : String) (v : α) : String → Option α :=
  fun x => if x = k then some v else f x

namespace V1

/-- The required environment configuration of version 1. -/
structure Env where
  disputeChannelId : String
  refHubChannelId : String
  refRoleId : String
  jrRefRoleId : String
  triggerRoleId : String
  disputeReviewChannelId : Option String
deriving Repr

/-- `refMeta` values (v1 line 43): `{p1Id, p2Id, issue, playerCountry,
opponentCountry}`; fields the code leaves `null`/unset are `none`. -/
structure Meta where
  p1Id : Option String
  p2Id : Option String
  issue : Option String
  playerCountry : Option RoleInfo
  opponentCountry : Option RoleInfo
deriving DecidableEq, Repr

/-- The in-memory state of version 1 (lines 37-43). -/
structure V1State where
  disputeToRefThread : String → Option String
  playerToRefThread : String → Option String
  refThreadToPlayer : String → Option String
  refThreadToOrigin : String → Option (String × String)
  closedPlayers : String → Bool
  refMeta : String → Option Meta

def initState : V1State :=
  ⟨fun _ => none, fun _ => none, fun _ => none, fun _ => none, fun _ => false, fun _ => none⟩

/-- `buildIntro` (v1 lines 101-119). -/
def buildIntro (env : Env) (playerName : String) (playerCountry opponentCountry : Option RoleInfo) :
    String :=
  let refRoleMention := "<@&" ++ env.refRoleId ++ ">"
  let jrRoleMention := "<@&" ++ env.jrRefRoleId ++ ">"
  let countriesLine :=
    if playerCountry.isSome || opponentCountry.isSome then
      "**Countries:** " ++ ((playerCountry.map RoleInfo.name).getD ("Unknown")) ++ " vs " ++
        ((opponentCountry.map RoleInfo.name).getD ("Unknown"))
    else "**Countries:** (not detected)"
  let sourceLine := "**Source:** <#" ++ env.disputeChannelId ++ ">"
  String.intercalate ("\n")
    [refRoleMention ++ " " ++ jrRoleMention,
     "**Dispute Thread for " ++ playerName ++ ".**",
     countriesLine,
     sourceLine,
     "",
     "— **Referee quick-start** —",
     "• Use `/set_issue` to set the issue (Lag, Communication, Device Issue, No Show, Wrong Pokemon or Moveset).",
     "• Use `/set_players` to set Player 1 & Player 2 — the thread title will update automatically."]

/-- The link sent to the raiser (v1 lines 150-152). -/
def raiserLink (m : Msg) (disputeThread : Option String) : String :=
  match disputeThread with
  | some d => "https://discord.com/channels/" ++ (m.guildId.getD ("")) ++ "/" ++ d
  | none => m.url

/-- The body of the evidence-questions DM (v1 lines 154-166). -/
def dmRaiserText (name link : String) : String :=
  String.intercalate ("\n")
    ["Hi " ++ name ++ ", this is the **Gymbreakers Referee Team**.",
     "Please send all evidence and messages **in this DM**. We’ll mirror everything privately for the referees.",
     "",
     "**Questions to answer:**",
     "• Please describe the issue.",
     "• Who was involved?",
     "• Please provide screenshots of your communication.",
     "• For Gameplay disputes, please provide full video evidence.",
     "",
     "Reference link to your dispute:",
     link]

def dmFallbackText : String :=
  "I tried to DM you but could not. Please keep evidence **in this thread** and enable DMs if possible."

/-- `dmDisputeRaiser` (v1 lines 147-179): try to DM the raiser; on failure fall
back to a public reply on the trigger message (whose own failure is swallowed).
`dmOk` is whether `user.send` succeeds; either way the function returns
normally. -/
def dmDisputeRaiser (m : Msg) (disputeThread : Option String) (dmOk : Bool) : List Effect :=
  let text := dmRaiserText (displayName m) (raiserLink m disputeThread)
  if dmOk then [Effect.dmUser m.authorId text]
  else [Effect.dmUser m.authorId text, Effect.replyMsg m.id dmFallbackText]

/-- Outcomes of the awaited calls inside the trigger handler. -/
structure TriggerExt where
  memberFetchOk : Bool
  reuseFetchOk : Bool
  createOk : Bool
  newThreadId : String
  introOk : Bool
  dmOk : Bool
deriving Repr

def noOpponentReplyText : String :=
  "I couldn’t detect an **opponent country**. Please **re-raise the issue and tag the opponent country role** (a role whose name includes `[XX]`)."

/-- The state writes of v1 lines 222-233: seed `refMeta`, both player/thread
maps and the origin map, and drop the author from `closedPlayers`. -/
def seedState (s : V1State) (m : Msg) (pc oc : Option RoleInfo) (rid : String) : V1State :=
  { s with
    refMeta := upd s.refMeta rid ⟨some m.authorId, none, none, pc, oc⟩,
    playerToRefThread := upd s.playerToRefThread m.authorId rid,
    refThreadToPlayer := upd s.refThreadToPlayer rid m.authorId,
    refThreadToOrigin := upd s.refThreadToOrigin rid (m.channelId, m.id),
    closedPlayers := fun u => if u = m.authorId then false else s.closedPlayers u }

/-- v1 lines 235-240: the intro post, then the raiser DM.  When the intro send
throws, the outer catch ends the handler and the DM is never attempted. -/
def seedEffects (env : Env) (m : Msg) (pc oc : Option RoleInfo) (disputeThread : Option String)
    (rid : String) (ext : TriggerExt) : List Effect :=
  Effect.sendMsg rid (buildIntro env (displayName m) pc oc) ::
    (if ext.introOk then dmDisputeRaiser m disputeThread ext.dmOk else [])

/-- `message.channel` when it is a (public or private) thread (v1 lines 209-212). -/
def disputeThreadOf (m : Msg) : Option String :=
  if m.channelIsThread then some m.channelId else none

/-- v1 lines 214-215: reuse the mapped referee thread of an already-triggered
dispute thread when `channels.fetch` finds it (`fetch('0')` of an absent
mapping always fails). -/
def reusedThread (s : V1State) (m : Msg) (reuseFetchOk : Bool) : Option String :=
  match disputeThreadOf m with
  | some d =>
    match s.disputeToRefThread d with
    | some rid => if reuseFetchOk then some rid else none
    | none => none
  | none => none

/-- How the guard/lookup phase of the trigger handler (v1 lines 186-215) ends:
silently (`skipped`: wrong channel, bot author, no trigger-role mention, or the
member fetch threw), with the opponent-country reply (`noOpponent`), or with
the data needed to seed the dispute (`proceed`). -/
inductive TriggerOutcome where
  | skipped
  | noOpponent
  | proceed (pc : Option RoleInfo) (ocr : RoleInfo) (disputeThread : Option String)
      (reused : Option String)

def triggerDecision (env : Env) (s : V1State) (m : Msg) (memberFetchOk reuseFetchOk : Bool) :
    TriggerOutcome :=
  if m.guildId.isNone || m.authorIsBot then .skipped
  else
    let inDispute := m.channelId == env.disputeChannelId ||
      m.channelParentId == some env.disputeChannelId
    let mentioned := messageMentionsRole m env.triggerRoleId
    if !(inDispute && mentioned) then .skipped
    else if !memberFetchOk then .skipped
    else
      let pc := getMemberCountry m.authorMemberRoles
      match getOpponentCountryFromMessage m.mentionedRoles (pc.map RoleInfo.name) with
      | none => .noOpponent
      | some ocr => .proceed pc ocr (disputeThreadOf m) (reusedThread s m reuseFetchOk)

/-- The dispute trigger handler of version 1 (lines 184-245), assembled from
the guard/lookup phase and the thread-creation/seeding phase. -/
def triggerHandler (env : Env) (s : V1State) (m : Msg) (ext : TriggerExt) :
    V1State × List Effect :=
  match triggerDecision env s m ext.memberFetchOk ext.reuseFetchOk with
  | .skipped => (s, [])
  | .noOpponent => (s, [Effect.replyMsg m.id noOpponentReplyText])
  | .proceed pc ocr disputeThread reused =>
    match reused with
    | some rid =>
      (seedState s m pc (some ocr) rid,
       seedEffects env m pc (some ocr) disputeThread rid ext)
    | none =>
      if !ext.createOk then (s, [])
      else
        let rid := ext.newThreadId
        let s0 :=
          match disputeThread with
          | some d => { s with disputeToRefThread := upd s.disputeToRefThread d rid }
          | none => s
        (seedState s0 m pc (some ocr) rid,
         Effect.createThread env.refHubChannelId ("Dispute – " ++ displayName m) ::
           seedEffects env m pc (some ocr) disputeThread rid ext)

/-- Outcomes of the awaited calls inside the DM mirror handler. -/
structure DMExt where
  threadFetchOk : Bool
  fileSendOk : Bool
deriving Repr

def closedReplyText : String :=
  "This dispute is **Closed**. Your DM was not forwarded."

/-- The mirrored content (v1 line 266). -/
def dmMirrorContent (m : Msg) : String :=
  "📥 **" ++ m.authorUsername ++ " (DM):** " ++
    (if m.content ≠ "" then m.content
     else if m.attachments ≠ [] then "(attachment)" else "(empty)")

/-- Effects of the DM mirror handler of version 1 (lines 248-278); the handler
never writes to the state. -/
def dmMirrorEffects (s : V1State) (m : Msg) (ext : DMExt) : List Effect :=
  if m.guildId.isSome then []
  else if m.authorIsBot then []
  else if !m.channelIsDM then []
  else
    match s.playerToRefThread m.authorId with
    | none => []
    | some rid =>
      if s.closedPlayers m.authorId then [Effect.replyMsg m.id closedReplyText]
      else if !ext.threadFetchOk then []
      else
        let content := dmMirrorContent m
        if m.attachments = [] then [Effect.sendMsg rid content]
        else if ext.fileSendOk then [Effect.sendMsgWithFiles rid content m.attachments]
        else [Effect.sendMsgWithFiles rid content m.attachments,
              Effect.sendMsg rid (content ++ "\n(Attachments present but could not be forwarded)")]

def dmMirrorHandler (s : V1State) (m : Msg) (ext : DMExt) : V1State × List Effect :=
  (s, dmMirrorEffects s m ext)

def emptyMeta : Meta := ⟨none, none, none, none, none⟩

/-- Usernames that `thread.guild.members.fetch(id)` would return (`none` when
the fetch fails — the source then falls back to `Player1` / `Player2`). -/
structure RenameExt where
  usernames : String → Option String

/-- `renameThreadByMeta` (v1 lines 121-145): retitle the thread to
`issue – name1 vs name2` once the issue and both players are known. -/
def renameThreadByMeta (s : V1State) (chId threadName : String) (ext : RenameExt) : List Effect :=
  let meta := (s.refMeta chId).getD emptyMeta
  let names :=
    (match meta.p1Id with
     | some p => [(ext.usernames p).getD ("Player1")]
     | none => []) ++
    (match meta.p2Id with
     | some p => [(ext.usernames p).getD ("Player2")]
     | none => [])
  let title :=
    match meta.issue, names with
    | some issue, [n1, n2] => issue ++ " – " ++ n1 ++ " vs " ++ n2
    | _, _ => threadName
  if title ≠ threadName then [Effect.setThreadName chId title] else []

/-- The `/set_players` branch of the interaction handler (v1 lines 351-368);
`chId` is the (thread) channel the command runs in, `threadName` its title. -/
def setPlayersHandler (s : V1State) (chId p1 p2 threadName : String) (ext : RenameExt) :
    V1State × List Effect :=
  let meta := (s.refMeta chId).getD emptyMeta
  let meta' := { meta with p1Id := some p1, p2Id := some p2 }
  let s' := { s with
    refMeta := upd s.refMeta chId meta',
    playerToRefThread := upd (upd s.playerToRefThread p1 chId) p2 chId }
  (s', renameThreadByMeta s' chId threadName ext ++
    [Effect.interactionReply
      ("Players set: **Player 1:** <@" ++ p1 ++ ">  •  **Player 2:** <@" ++ p2 ++ ">")])

/-- The `/set_issue` branch (v1 lines 370-377). -/
def setIssueHandler (s : V1State) (chId issue threadName : String) (ext : RenameExt) :
    V1State × List Effect :=
  let meta := (s.refMeta chId).getD emptyMeta
  let meta' := { meta with issue := some issue }
  let s' := { s with refMeta := upd s.refMeta chId meta' }
  (s', renameThreadByMeta s' chId threadName ext ++
    [Effect.interactionReply ("Issue set to **" ++ issue ++ "**.")])

/-- Outcomes of the awaited calls inside `/close`: whether the origin channel
was fetched with an eligible type (`GuildText` or `PublicThread`) and whether
the original trigger message was fetched. -/
structure CloseExt where
  originChanOk : Bool
  originMsgOk : Bool
deriving Repr

def closeDMText (env : Env) : String :=
  "Your dispute has been **Closed** by the referees. If you need to follow up, please message" ++
    (match env.disputeReviewChannelId with
     | some c => " <#" ++ c ++ ">"
     | none => " the Dispute Review channel.")

/-- The `/close` branch of the interaction handler (v1 lines 434-468), run
inside thread `chId`.  It adds the recorded players to `closedPlayers`,
attempts to delete the original trigger message, DMs the raiser, archives and
locks the thread; it deletes nothing from any map. -/
def closeHandler (env : Env) (s : V1State) (chId : String) (ext : CloseExt) :
    V1State × List Effect :=
  let meta? := s.refMeta chId
  let closed' := fun u => s.closedPlayers u ||
    (match meta? with
     | some mt => mt.p1Id == some u || mt.p2Id == some u
     | none => false)
  let originEffs :=
    match s.refThreadToOrigin chId with
    | some o =>
      if ext.originChanOk && ext.originMsgOk then [Effect.deleteMsg o.1 o.2] else []
    | none => []
  let dmEffs :=
    match s.refThreadToPlayer chId with
    | some raiser => [Effect.dmUser raiser (closeDMText env)]
    | none => []
  ({ s with closedPlayers := closed' },
   originEffs ++ dmEffs ++
     [Effect.archiveThread chId, Effect.lockThread chId,
      Effect.interactionReply ("✅ Dispute closed (archived & locked).")])

/-- The events of version 1 that can touch the in-memory state.  (The
remaining v1 handlers — the DM mirror, `/message` and `/country_post` — never
write to any of the maps, as direct inspection of lines 248-278 and 379-432
shows, so they are represented by the state-preserving `dmMirror` event.) -/
inductive Event where
  | trigger (m : Msg) (ext : TriggerExt)
  | dmMirror (m : Msg) (ext : DMExt)
  | setPlayers (chId p1 p2 threadName : String) (ext : RenameExt)
  | setIssue (chId issue threadName : String) (ext : RenameExt)
  | close (chId : String) (ext : CloseExt)

def stepState (env : Env) (s : V1State) : Event → V1State
  | .trigger m ext => (triggerHandler env s m ext).1
  | .dmMirror m ext => (dmMirrorHandler s m ext).1
  | .setPlayers chId p1 p2 tn ext => (setPlayersHandler s chId p1 p2 tn ext).1
  | .setIssue chId issue tn ext => (setIssueHandler s chId issue tn ext).1
  | .close chId ext => (closeHandler env s chId ext).1

/-- States reachable from the empty boot state through the v1 handlers. -/
inductive Reachable (env : Env) : V1State → Prop
  | init : Reachable env initState
  | step {s : V1State} (e : Event) : Reachable env s → Reachable env (stepState env s e)

/-- Invariant of the v1 state: every closed player and every player recorded in
a `refMeta` entry has a `playerToRefThread` mapping. -/
def Inv (s : V1State) : Prop :=
  (∀ u, s.closedPlayers u = true → (s.playerToRefThread u).isSome = true) ∧
  (∀ t mt, s.refMeta t = some mt →
    (∀ p, mt.p1Id = some p → (s.playerToRefThread p).isSome = true) ∧
    (∀ p, mt.p2Id = some p → (s.playerToRefThread p).isSome = true))

end V1

namespace V3

/-- Hard-coded configuration of the multi-guild version (lines 1120-1122):
`DISPUTE_REVIEW_CHANNEL_ID` and `RULES_CHANNEL_ID` are the empty string. -/
def rulesChannelId : String := ""

/-- `getRulesChannelMention` (lines 1706-1708). -/
def getRulesChannelMention : String :=
  if rulesChannelId ≠ "" then "<#" ++ rulesChannelId ++ ">" else "📓rules-for-worlds"

/-- `const mention = id => id ? `<@id>` : '@Player'` (line 1162). -/
def mention (id : Option String) : String :=
  match id with
  | some i => "<@" ++ i ++ ">"
  | none => "@Player"

/-- `roleMention` (line 1163). -/
def roleMention (id : Option String) (fallbackName : Option String) : String :=
  match id with
  | some i => "<@&" ++ i ++ ">"
  | none => fallbackName.getD ("@Country")

/-- `refMeta` values of v3 (line 1146). -/
structure Meta where
  p1Id : Option String
  p2Id : Option String
  issue : Option String
  playerCountry : Option RoleInfo
  opponentCountry : Option RoleInfo
  originGuildId : Option String
deriving Repr

/-- The `/decision` options (lines 1989-1998); absent options are `none`. -/
structure DecisionOpts where
  outcome : String
  team_rule : Option String
  favour : Option String
  schedule_window : Option String
  device_player : Option String
  pokemon : Option String
  old_move : Option String
  new_move : Option String
  penalty_against : Option String
deriving Repr

/-- `teamRuleLines` (lines 1683-1694). -/
def teamRuleLines (rule : Option String) : List String :=
  if rule = some ("same_teams_same_lead") then
    ["The same teams must be used, with the same lead Pokémon."]
  else if rule = some ("same_lead_flex_back") then
    ["The same lead Pokémon must be used, the back line may be changed."]
  else if rule = some ("new_teams") then
    ["New teams may be used."]
  else []

/-- `decisionHeader` (lines 1696-1704). -/
def decisionHeader (meta : Meta) (raiserId : Option String) (issueForText : Option String) :
    List String :=
  [mention meta.p1Id ++ " " ++ mention meta.p2Id,
   "After reviewing the match dispute set by " ++ mention raiserId ++ " regarding " ++
     (issueForText.getD (meta.issue.getD ("(issue)"))) ++ ". The Referees team has decided:"]

def formatFooterLines : List String :=
  ["",
   "We would like to remind all parties involved that referees and staff members from countries involved in disputes cannot be involved in the resolution of the dispute.",
   "",
   "Good luck in your remaining battles."]

/-- `buildDecisionText` (lines 1710-1859).  The `comm_force_sub` case returns
its own body without the standard header and footer, exactly as the source
does with its early `return`. -/
def buildDecisionText (meta : Meta) (opts : DecisionOpts) (raiserId : Option String) : String :=
  let p1 := mention meta.p1Id
  let p2 := mention meta.p2Id
  let p1c := (meta.playerCountry.map RoleInfo.name).getD ("Player1 country")
  let p2c := (meta.opponentCountry.map RoleInfo.name).getD ("Player2 country")
  let header := decisionHeader meta raiserId none
  let favourCountry :=
    if opts.favour = some ("p1_country") then p1c
    else if opts.favour = some ("p2_country") then p2c
    else "(country)"
  let deviceUser :=
    if opts.device_player = some ("p1") then p1
    else if opts.device_player = some ("p2") then p2
    else "@player"
  let penaltyAgainst :=
    if opts.penalty_against = some ("p1_country") then p1c
    else if opts.penalty_against = some ("p2_country") then p2c
    else "(country)"
  if opts.outcome = "comm_force_sub" then
    let p1m := mention meta.p1Id
    let p2m := mention meta.p2Id
    let c1m := roleMention (meta.playerCountry.map RoleInfo.id) (meta.playerCountry.map RoleInfo.name)
    let c2m := roleMention (meta.opponentCountry.map RoleInfo.id) (meta.opponentCountry.map RoleInfo.name)
    let c1n := (meta.playerCountry.map RoleInfo.name).getD ("Country 1")
    let c2n := (meta.opponentCountry.map RoleInfo.name).getD ("Country 2")
    String.intercalate ("\n")
      [c1m ++ " " ++ c2m,
       "",
       "After reviewing an evidence of the communication of the following players:",
       p1m ++ " & " ++ p2m,
       "",
       "Staff team has decided that a substitution will be necessary in this case to conclude this particular matchup:",
       "❗" ++ p1m ++ " 0 - 0 " ++ p2m,
       "",
       "Please, both teams mention in your team channels, who will be the players replacing",
       "❗" ++ c1n ++ ": " ++ p1m,
       "❗" ++ c2n ++ ": " ++ p2m,
       "",
       "And make sure to tag @staff when making your decision! If both teams will decide to keep the same players, then we will be forcing both sides to either come to an agreement to play after all or both teams will have to choose other players from the roster.",
       "Decisions must be made within the next 24 hours.",
       "In terms of substitution rules, please visit " ++ getRulesChannelMention,
       "No penalties will be applied."]
  else
    let lines : List String :=
      if opts.outcome = "lag_rematch" then
        ["A **rematch will be granted**."] ++ teamRuleLines opts.team_rule
      else if opts.outcome = "lag_no_rematch" then
        ["A **rematch will NOT be granted**."]
      else if opts.outcome = "lag_win_p1" then
        ["The **win is awarded to " ++ p1 ++ "**. The remaining games are still to be played (if applicable).",
         "The score is 1-0 in favour of " ++ p1 ++ ". Please update the score when available."]
      else if opts.outcome = "lag_win_p2" then
        ["The **win is awarded to " ++ p2 ++ "**. The remaining games are still to be played (if applicable).",
         "The score is 1-0 in favour of " ++ p2 ++ ". Please update the score when available."]
      else if opts.outcome = "comm_bad_1" ∨ opts.outcome = "comm_bad" then
        ["**Did not communicate sufficiently.**",
         "Subsequent to 6.1, a penalty point is issued in favour of **" ++ favourCountry ++ "**.",
         "The games must be scheduled within **" ++ (opts.schedule_window.getD ("24 hours")) ++ "**. All games are to be played."]
      else if opts.outcome = "comm_bad_3" then
        ["**Did not communicate sufficiently (both opponents in the pair).**",
         "Subsequent to 6.1, **3 penalty points** are issued in favour of **" ++ favourCountry ++ "**.",
         "The games must be scheduled within **" ++ (opts.schedule_window.getD ("24 hours")) ++ "**. All games are to be played."]
      else if opts.outcome = "comm_invalid" then
        ["The dispute is **ruled invalid** under 6.1.",
         "Both players are to communicate and agree a new time to battle within the next 24 hours.",
         "If scheduling or communication issues persist please contact team captains first."]
      else if opts.outcome = "dev_rematch" then
        ["A **rematch will be granted** due to a device issue."] ++ teamRuleLines opts.team_rule ++
          ["A warning is issued to " ++ deviceUser ++ "."]
      else if opts.outcome = "dev_no_rematch" then
        ["A **rematch will NOT be granted** (device issue).",
         "A warning is issued to " ++ deviceUser ++ "."]
      else if opts.outcome = "dev_win_p1" then
        ["The **win is awarded to " ++ p1 ++ "** (device issue on opponent).",
         "A warning is issued to " ++ deviceUser ++ "."]
      else if opts.outcome = "dev_win_p2" then
        ["The **win is awarded to " ++ p2 ++ "** (device issue on opponent).",
         "A warning is issued to " ++ deviceUser ++ "."]
      else if opts.outcome = "ns_p1_1" then
        [p1 ++ " **failed to show in time**. Subsequent to 6.2.4 the penalty is **1 penalty point**.",
         "The remaining games are to be played."]
      else if opts.outcome = "ns_p2_1" then
        [p2 ++ " **failed to show in time**. Subsequent to 6.2.4 the penalty is **1 penalty point**.",
         "The remaining games are to be played."]
      else if opts.outcome = "ns_p1_3" then
        [p1 ++ " **failed to show in time**. Subsequent to 6.2.5 (last 24 hours) the penalty is **3 penalty points**.",
         "The remaining games are to be played."]
      else if opts.outcome = "ns_p2_3" then
        [p2 ++ " **failed to show in time**. Subsequent to 6.2.5 (last 24 hours) the penalty is **3 penalty points**.",
         "The remaining games are to be played."]
      else if opts.outcome = "wp_pokemon" then
        ["An **unregistered Pokémon** was used (" ++ (opts.pokemon.getD ("(Pokémon)")) ++ ").",
         "Subsequent to 2.5.1 the outcome is **1 Penalty Point** on the Global Score against **" ++ penaltyAgainst ++ "**.",
         "The matches where " ++ (opts.pokemon.getD ("(the Pokémon)")) ++ " was used must be replayed.",
         p1 ++ " and " ++ p2 ++ " must only use the **registered Pokémon** in those games and with the rest of their opponents."]
      else if opts.outcome = "wp_moveset" then
        ["An **illegal moveset change** was used (" ++ (opts.old_move.getD ("(old move)")) ++ " → " ++ (opts.new_move.getD ("(new move)")) ++ "; " ++ (opts.pokemon.getD ("(Pokémon)")) ++ ").",
         "Subsequent to 2.5.1 the outcome is **1 Penalty Point** on the Global Score against **" ++ penaltyAgainst ++ "**.",
         "The matches where " ++ (opts.new_move.getD ("(the new move)")) ++ " was used must be replayed.",
         "Only **" ++ (opts.old_move.getD ("(the old move)")) ++ "** is allowed in those games and with the rest of the opponents."]
      else ["Decision recorded."]
    String.intercalate ("\n") (header ++ [""] ++ lines ++ formatFooterLines)

/-- Outcome data of the `/decision` target resolution (lines 2007-2020):
whether `guilds.fetch(meta.originGuildId)` succeeded and the origin guild's
channel cache after hydration. -/
structure DecisionExt where
  originFetchOk : Bool
  originChannels : List Channel
deriving Repr

/-- The `/decision` branch of the v3 interaction handler (lines 1989-2034),
run inside referee thread `chId`.  `raiserId` is `refThreadToPlayer.get(ch.id)`
and `override` the optional `channel` option.  The text goes to the override
channel only when that channel is a guild text channel; with no override the
auto-detected decision channel of the origin guild is used when found;
otherwise the text is posted in the referee thread itself. -/
def decisionHandler (meta : Meta) (opts : DecisionOpts) (raiserId : Option String)
    (override : Option Channel) (chId : String) (ext : DecisionExt) : List Effect :=
  let text := buildDecisionText meta opts raiserId
  let target : Option Channel :=
    match override with
    | some c => some c
    | none =>
      match meta.originGuildId with
      | some _ =>
        if ext.originFetchOk then
          findDecisionChannel ext.originChannels (meta.playerCountry.map RoleInfo.name)
            (meta.opponentCountry.map RoleInfo.name)
        else none
      | none => none
  match target with
  | some c =>
    if c.kind = ChanKind.guildText then
      [Effect.sendMsg c.id text,
       Effect.sendMsg chId ("📣 Decision posted to <#" ++ c.id ++ ">."),
       Effect.interactionReply ("Decision posted.")]
    else
      [Effect.sendMsg chId text, Effect.interactionReply ("Decision posted.")]
  | none =>
    [Effect.sendMsg chId text, Effect.interactionReply ("Decision posted.")]

/-- `bracketCode` (line 1164): the first `/\[([^\]]+)\]/` capture of a role
name, lowercased; empty when there is no bracketed code. -/
def bracketCodeChars (s : List Char) : List Char :=
  match s with
  | [] => []
  | c :: t =>
    if c = '[' then
      let inner := t.takeWhile (fun d => d ≠ ']')
      if inner.length ≠ 0 ∧ inner.length < t.length then inner else bracketCodeChars t
    else bracketCodeChars t

def bracketCode (s : String) : String :=
  String.mk ((bracketCodeChars s.toList).map Char.toLower)

/-- A guild member: `gm.user?.username` may be missing. -/
structure GuildMember where
  id : String
  username : Option String
  roles : List RoleInfo
deriving Repr

/-- `removeConflictedFromThread` (lines 1301-1329).  `threadMemberIds` is the
thread member cache in iteration order; `guildFetch` is what
`destGuild.members.fetch(id)` returns (`none` = the fetch failed, the member is
skipped); `removeOk id` is whether `thread.members.remove(id)` succeeds — a
failure is swallowed by `.catch(() => {})` and the member is still listed in
the summary, so the outcome only shows up in the recorded effect. -/
def removeConflictedFromThread (threadId : String) (threadMemberIds : List String)
    (guildFetch : String → Option GuildMember) (countries : List String)
    (removeOk : String → Bool) : List Effect :=
  let countryNames := countries.filter (fun c => c ≠ "")
  let countryCodes := (countryNames.map bracketCode).filter (fun c => c ≠ "")
  let conflicted := threadMemberIds.filterMap (fun mid =>
    match guildFetch mid with
    | none => none
    | some gm =>
      if gm.roles.any (fun r =>
          countryNames.contains r.name ||
            (bracketCode r.name != "" && countryCodes.contains (bracketCode r.name))) then
        some gm
      else none)
  let kicked := conflicted.map (fun gm => gm.username.getD gm.id)
  (conflicted.map (fun gm => Effect.removeThreadMember threadId gm.id (removeOk gm.id))) ++
    [Effect.sendMsg threadId
      (if kicked ≠ [] then
        "🚫 Auto-removed conflicted referees: " ++ String.intercalate (", ") kicked ++ "."
       else "✅ No conflicted referees found.")]

end V3

namespace V4

/-- `removeConflictedRefs` of the last version (lines 2296-2319).  `guildRoles`
is the guild's role cache, `allMembers` the fetched member list; `removeOk` is
as in `V3.removeConflictedFromThread` — a removal failure is swallowed and the
loop continues. -/
def removeConflictedRefs (threadId : String) (guildRoles : List RoleInfo)
    (allMembers : List V3.GuildMember) (refRoleId jrRefRoleId countryRolePref : String)
    (countries : List String) (removeOk : String → Bool) : List Effect :=
  if countries = [] then []
  else
    let countryRoleNames := countries.map (fun c => countryRolePref ++ c)
    let conflictedRoleIds :=
      (guildRoles.filter (fun r => countryRoleNames.contains r.name)).map RoleInfo.id
    if conflictedRoleIds = [] then []
    else
      let refs := allMembers.filter (fun m =>
        m.roles.any (fun r => r.id == refRoleId) || m.roles.any (fun r => r.id == jrRefRoleId))
      ((refs.filter (fun m => m.roles.any (fun r => conflictedRoleIds.contains r.id))).map
        (fun m => Effect.removeThreadMember threadId m.id (removeOk m.id))) ++
        [Effect.sendMsg threadId
          ("🚫 Removed conflicted referees based on country roles: " ++
            String.intercalate (" / ") countries)]

end V4

/-- Normalises away the recorded success bit of a `removeThreadMember` attempt;
two effect lists equal after this map differ at most in which removals
succeeded. -/
def eraseRemoveOutcome : Effect → Effect
  | .removeThreadMember t u _ => .removeThreadMember t u true
  | e => e

/-! Concrete fixtures used by the witness and counterexample theorems. -/

namespace Fx

def envW : V1.Env :=
  { disputeChannelId := "dc", refHubChannelId := "hub", refRoleId := "rr",
    jrRefRoleId := "jr", triggerRoleId := "tr", disputeReviewChannelId := none }

def roleTrigger : RoleInfo := { id := "tr", name := "Referee" }

def roleGB : RoleInfo := { id := "r1", name := "Team [GB]" }

def roleDE : RoleInfo := { id := "r2", name := "Team [DE]" }

/-- A valid trigger message from `alice` in the dispute channel, tagging the
trigger role and the opponent country role. -/
def m1 : Msg :=
  { id := "m1", url := "https://discord.com/x/m1", guildId := some "g", channelId := "dc",
    channelParentId := none, channelIsThread := false, channelIsDM := false,
    authorId := "alice", authorIsBot := false, authorUsername := "alice",
    authorGlobalName := none, content := "dispute", mentionedRoles := [roleTrigger, roleDE],
    authorMemberRoles := [roleGB], attachments := [] }

def ext1 : V1.TriggerExt :=
  { memberFetchOk := true, reuseFetchOk := false, createOk := true,
    newThreadId := "rt1", introOk := true, dmOk := true }

def s1 : V1.V1State := (V1.triggerHandler envW V1.initState m1 ext1).1

/-- A second trigger message from the same player, creating a second referee
thread `rt2`. -/
def m2 : Msg := { m1 with id := "m2", url := "https://discord.com/x/m2" }

def ext2 : V1.TriggerExt := { ext1 with newThreadId := "rt2" }

def s2 : V1.V1State := (V1.triggerHandler envW s1 m2 ext2).1

/-- A trigger message with no opponent country role mention. -/
def m9 : Msg := { m1 with id := "m9", mentionedRoles := [roleTrigger] }

/-- A bot-authored message. -/
def mBot : Msg := { m1 with id := "mb", authorIsBot := true }

/-- A DM from `alice`. -/
def dmAlice : Msg :=
  { id := "d1", url := "https://discord.com/x/d1", guildId := none, channelId := "dmc",
    channelParentId := none, channelIsThread := false, channelIsDM := true,
    authorId := "alice", authorIsBot := false, authorUsername := "alice",
    authorGlobalName := none, content := "hello", mentionedRoles := [],
    authorMemberRoles := [], attachments := [] }

def dmExtW : V1.DMExt := { threadFetchOk := true, fileSendOk := true }

def clExtW : V1.CloseExt := { originChanOk := true, originMsgOk := true }

/-- The state after `alice`'s dispute in `rt1` has been `/close`d. -/
def s4 : V1.V1State := (V1.closeHandler envW s1 ("rt1") clExtW).1

def chansW : List Channel :=
  [{ id := "c1", name := "general", kind := ChanKind.guildText },
   { id := "c2", name := "italy-france-chat", kind := ChanKind.guildText },
   { id := "c3", name := "post-italy-france", kind := ChanKind.guildText }]

def metaW : V3.Meta :=
  { p1Id := some "p1u", p2Id := some "p2u", issue := some "No Show",
    playerCountry := some roleGB, opponentCountry := some roleDE, originGuildId := some "g2" }

def optsW : V3.DecisionOpts :=
  { outcome := "ns_p1_1", team_rule := none, favour := none, schedule_window := none,
    device_player := none, pokemon := none, old_move := none, new_move := none,
    penalty_against := none }

def voiceChanW : Channel := { id := "vc1", name := "post-team-gb-team-de", kind := ChanKind.voice }

def textChanW : Channel := { id := "tc1", name := "post-team-gb-team-de", kind := ChanKind.guildText }

def decExtW : V3.DecisionExt := { originFetchOk := true, originChannels := [textChanW] }

end Fx

/-! Helper lemmas shared by the claim theorems. -/

theorem upd_isSome {α : Type} (f : String → Option α) (k : String) (v : α) (x : String)
    (h : (f x).isSome = true) : (upd f k v x).isSome = true := by
  unfold upd
  split
  · rfl
  · exact h

theorem findDecisionChannel_some {chans : List Channel} {a b : Option String} {c : Channel}
    (h : findDecisionChannel chans a b = some c) :
    ∃ ca cb, a = some ca ∧ b = some cb ∧ c ∈ chans ∧ c.kind = ChanKind.guildText ∧
      strContains c.name (slug ca) = true ∧ strContains c.name (slug cb) = true := by
  match a, b with
  | none, _ => simp [findDecisionChannel] at h
  | some ca, none => simp [findDecisionChannel] at h
  | some ca, some cb =>
    refine ⟨ca, cb, rfl, rfl, ?_⟩
    simp only [findDecisionChannel] at h
    split at h
    · exact absurd h (by simp)
    · have hmem : c ∈ chans.filter (fun ch =>
          ch.kind == ChanKind.guildText && strContains ch.name (slug ca) &&
            strContains ch.name (slug cb)) := by
        split at h
        · next c' hfind =>
          cases h
          exact List.mem_of_find?_eq_some hfind
        · next hfind =>
          cases hl : (chans.filter (fun ch =>
              ch.kind == ChanKind.guildText && strContains ch.name (slug ca) &&
                strContains ch.name (slug cb))) with
          | nil => rw [hl] at h; simp at h
          | cons hd tl =>
            rw [hl] at h
            simp only [List.head?] at h
            cases h
            exact List.mem_cons_self _ _
      have hp := (List.mem_filter.mp hmem).2
      have hc := (List.mem_filter.mp hmem).1
      simp only [Bool.and_eq_true, beq_iff_eq] at hp
      exact ⟨hc, hp.1.1, hp.1.2, hp.2⟩

/-- C5: `findDecisionChannel(guild, countryA, countryB)` returns `null` when a
country is missing; otherwise it returns a guild text channel whose name
contains the slugs of both countries, preferring a channel whose name starts
with `post` or `result`, and returns `null` when no channel matches both. -/
theorem c5_findDecisionChannel (chans : List Channel) (a b : Option String) :
    (a = none ∨ b = none → findDecisionChannel chans a b = none) ∧
    (∀ c, findDecisionChannel chans a b = some c →
      c ∈ chans ∧ c.kind = ChanKind.guildText ∧
        ∃ ca cb, a = some ca ∧ b = some cb ∧
          strContains c.name (slug ca) = true ∧ strContains c.name (slug cb) = true) ∧
    (∀ ca cb, a = some ca → b = some cb → ca ≠ "" → cb ≠ "" →
      ((∃ c ∈ chans.filter (fun ch =>
          ch.kind == ChanKind.guildText && strContains ch.name (slug ca) &&
            strContains ch.name (slug cb)),
          (startsWithStr c.name ("post") || startsWithStr c.name ("result")) = true) →
        ∃ c, findDecisionChannel chans a b = some c ∧
          (startsWithStr c.name ("post") || startsWithStr c.name ("result")) = true) ∧
      (chans.filter (fun ch =>
          ch.kind == ChanKind.guildText && strContains ch.name (slug ca) &&
            strContains ch.name (slug cb)) = [] →
        findDecisionChannel chans a b = none)) := by
  refine ⟨?_, ?_, ?_⟩
  · rintro (rfl | rfl)
    · simp [findDecisionChannel]
    · cases a <;> simp [findDecisionChannel]
  · intro c h
    obtain ⟨ca, cb, ha, hb, hmem, hkind, h1, h2⟩ := findDecisionChannel_some h
    exact ⟨hmem, hkind, ca, cb, ha, hb, h1, h2⟩
  · rintro ca cb rfl rfl hca hcb
    constructor
    · rintro ⟨c, hmem, hpref⟩
      have hfind : ((chans.filter (fun ch =>
          ch.kind == ChanKind.guildText && strContains ch.name (slug ca) &&
            strContains ch.name (slug cb))).find?
            (fun ch => startsWithStr ch.name ("post") || startsWithStr ch.name ("result"))).isSome
            = true :=
        List.find?_isSome.mpr ⟨c, hmem, hpref⟩
      obtain ⟨c', hc'⟩ := Option.isSome_iff_exists.mp hfind
      refine ⟨c', ?_, ?_⟩
      · simp only [findDecisionChannel]
        rw [if_neg (by simp [hca, hcb]), hc']
      · have hp := List.find?_some hc'
        simpa using hp
    · intro hnil
      simp only [findDecisionChannel]
      rw [if_neg (by simp [hca, hcb]), hnil]
      rfl

/-- C5 witness: on a concrete guild the missing-country case yields `null` and
the concrete channel list yields the `post`-preferred channel. -/
theorem c5_findDecisionChannel_witness :
    findDecisionChannel Fx.chansW none (some ("France")) = none ∧
    (∃ c, findDecisionChannel Fx.chansW (some ("Italy")) (some ("France")) = some c ∧
      (startsWithStr c.name ("post") || startsWithStr c.name ("result")) = true) := by
  refine ⟨(c5_findDecisionChannel Fx.chansW none (some ("France"))).1 (Or.inl rfl), ?_⟩
  have h := (c5_findDecisionChannel Fx.chansW (some ("Italy")) (some ("France"))).2.2
    ("Italy") ("France") rfl rfl (by decide) (by decide)
  exact h.1 (by decide)

/-- C7: when the evidence-questions DM fails, the bot falls back to a public
reply on the trigger message, and the DM outcome has no influence on the state
the trigger handler leaves behind. -/
theorem c7_dm_fallback (env : V1.Env) (s : V1.V1State) (m : Msg) (dThread : Option String)
    (mf rf co : Bool) (nid : String) (io : Bool) :
    V1.dmDisputeRaiser m dThread false =
      [Effect.dmUser m.authorId (V1.dmRaiserText (displayName m) (V1.raiserLink m dThread)),
       Effect.replyMsg m.id V1.dmFallbackText] ∧
    (V1.triggerHandler env s m ⟨mf, rf, co, nid, io, true⟩).1 =
      (V1.triggerHandler env s m ⟨mf, rf, co, nid, io, false⟩).1 := by
  refine ⟨rfl, ?_⟩
  simp only [V1.triggerHandler]
  cases hd : V1.triggerDecision env s m mf rf with
  | skipped => rfl
  | noOpponent => rfl
  | proceed pc ocr dt reused =>
    cases reused with
    | some rid => rfl
    | none => cases co <;> rfl

/-- C8: a failed removal of a conflicted referee is swallowed: in both
`removeConflictedFromThread` (v3) and `removeConflictedRefs` (v4), the emitted
API calls — which members are attempted and every posted message — are
identical whatever subset of the removals fails. -/
theorem c8_removal_swallowed (threadId : String) (tms : List String)
    (gf : String → Option V3.GuildMember) (countries : List String)
    (guildRoles : List RoleInfo) (allMembers : List V3.GuildMember)
    (refRoleId jrRefRoleId rolePref : String) (cs2 : List String)
    (f g : String → Bool) :
    (V3.removeConflictedFromThread threadId tms gf countries f).map eraseRemoveOutcome =
      (V3.removeConflictedFromThread threadId tms gf countries g).map eraseRemoveOutcome ∧
    (V4.removeConflictedRefs threadId guildRoles allMembers refRoleId jrRefRoleId rolePref cs2 f).map
        eraseRemoveOutcome =
      (V4.removeConflictedRefs threadId guildRoles allMembers refRoleId jrRefRoleId rolePref cs2 g).map
        eraseRemoveOutcome := by
  constructor
  · simp only [V3.removeConflictedFromThread, List.map_append, List.map_map]
    congr 1
  · simp only [V4.removeConflictedRefs]
    split
    · rfl
    · split
      · rfl
      · simp only [List.map_append, List.map_map]
        congr 1

/-- C10: both v1 `MessageCreate` handlers return immediately on bot-authored
messages: no effect is produced and the state is untouched. -/
theorem c10_bot_guard (env : V1.Env) (s : V1.V1State) (m : Msg) (tx : V1.TriggerExt)
    (dx : V1.DMExt) (h : m.authorIsBot = true) :
    V1.triggerHandler env s m tx = (s, []) ∧ V1.dmMirrorHandler s m dx = (s, []) := by
  constructor
  · simp [V1.triggerHandler, V1.triggerDecision, h]
  · simp only [V1.dmMirrorHandler, V1.dmMirrorEffects, h]
    split
    · rfl
    · rfl

/-- C10 witness: a concrete bot-authored message triggers neither handler. -/
theorem c10_bot_guard_witness :
    Fx.mBot.authorIsBot = true ∧
    (V1.triggerHandler Fx.envW V1.initState Fx.mBot Fx.ext1 = (V1.initState, []) ∧
     V1.dmMirrorHandler V1.initState Fx.mBot Fx.dmExtW = (V1.initState, [])) :=
  ⟨rfl, c10_bot_guard Fx.envW V1.initState Fx.mBot Fx.ext1 Fx.dmExtW rfl⟩

/-! Projection lemmas for the state-writing v1 handlers, and the state
invariant used to settle the DM-mirror claims. -/

theorem upd_eq_same {α : Type} (f : String → Option α) (k : String) (v : α) :
    upd f k v k = some v := by
  simp [upd]

theorem seedState_player (s : V1.V1State) (m : Msg) (pc oc : Option RoleInfo) (rid : String) :
    (V1.seedState s m pc oc rid).playerToRefThread = upd s.playerToRefThread m.authorId rid := rfl

theorem seedState_thread (s : V1.V1State) (m : Msg) (pc oc : Option RoleInfo) (rid : String) :
    (V1.seedState s m pc oc rid).refThreadToPlayer = upd s.refThreadToPlayer rid m.authorId := rfl

theorem seedState_closed (s : V1.V1State) (m : Msg) (pc oc : Option RoleInfo) (rid : String) :
    (V1.seedState s m pc oc rid).closedPlayers =
      fun u => if u = m.authorId then false else s.closedPlayers u := rfl

theorem seedState_refMeta (s : V1.V1State) (m : Msg) (pc oc : Option RoleInfo) (rid : String) :
    (V1.seedState s m pc oc rid).refMeta =
      upd s.refMeta rid ⟨some m.authorId, none, none, pc, oc⟩ := rfl

theorem inv_initState : V1.Inv V1.initState := by
  constructor
  · intro u h
    simp [V1.initState] at h
  · intro t mt h
    simp [V1.initState] at h

theorem inv_seedState {s : V1.V1State} (m : Msg) (pc oc : Option RoleInfo) (rid : String)
    (h : V1.Inv s) : V1.Inv (V1.seedState s m pc oc rid) := by
  obtain ⟨h1, h2⟩ := h
  constructor
  · intro u hu
    change (if u = m.authorId then false else s.closedPlayers u) = true at hu
    rw [seedState_player]
    by_cases he : u = m.authorId
    · rw [if_pos he] at hu
      exact absurd hu (by simp)
    · rw [if_neg he] at hu
      exact upd_isSome _ _ _ _ (h1 u hu)
  · intro t mt hmt
    rw [seedState_refMeta] at hmt
    simp only [upd] at hmt
    split at hmt
    · cases hmt
      refine ⟨?_, ?_⟩
      · intro p hp
        simp only [Option.some.injEq] at hp
        subst hp
        rw [seedState_player, upd_eq_same]
        rfl
      · intro p hp
        exact absurd hp (by simp)
    · have hold := h2 t mt hmt
      refine ⟨?_, ?_⟩
      · intro p hp
        rw [seedState_player]
        exact upd_isSome _ _ _ _ (hold.1 p hp)
      · intro p hp
        rw [seedState_player]
        exact upd_isSome _ _ _ _ (hold.2 p hp)

theorem inv_triggerHandler (env : V1.Env) (s : V1.V1State) (m : Msg) (tx : V1.TriggerExt)
    (h : V1.Inv s) : V1.Inv (V1.triggerHandler env s m tx).1 := by
  simp only [V1.triggerHandler]
  cases hd : V1.triggerDecision env s m tx.memberFetchOk tx.reuseFetchOk with
  | skipped => exact h
  | noOpponent => exact h
  | proceed pc ocr dt reused =>
    cases reused with
    | some rid => exact inv_seedState m pc _ rid h
    | none =>
      cases hco : tx.createOk with
      | false => exact h
      | true =>
        simp only [Bool.not_true]
        cases dt with
        | some d =>
          exact inv_seedState m pc _ _ (show V1.Inv _ from h)
        | none => exact inv_seedState m pc _ _ h

theorem inv_closeHandler (env : V1.Env) (s : V1.V1State) (chId : String) (cx : V1.CloseExt)
    (h : V1.Inv s) : V1.Inv (V1.closeHandler env s chId cx).1 := by
  obtain ⟨h1, h2⟩ := h
  constructor
  · intro u hu
    change (s.closedPlayers u ||
      (match s.refMeta chId with
       | some mt => mt.p1Id == some u || mt.p2Id == some u
       | none => false)) = true at hu
    rw [Bool.or_eq_true] at hu
    rcases hu with hu | hu
    · exact h1 u hu
    · cases hm : s.refMeta chId with
      | none => rw [hm] at hu; simp at hu
      | some mt =>
        rw [hm] at hu
        rw [Bool.or_eq_true] at hu
        rcases hu with hu | hu
        · rw [beq_iff_eq] at hu
          exact (h2 chId mt hm).1 u hu
        · rw [beq_iff_eq] at hu
          exact (h2 chId mt hm).2 u hu
  · intro t mt hmt
    exact h2 t mt hmt

theorem inv_setPlayersHandler (s : V1.V1State) (chId p1 p2 tn : String) (rx : V1.RenameExt)
    (h : V1.Inv s) : V1.Inv (V1.setPlayersHandler s chId p1 p2 tn rx).1 := by
  obtain ⟨h1, h2⟩ := h
  constructor
  · intro u hu
    exact upd_isSome _ _ _ _ (upd_isSome _ _ _ _ (h1 u hu))
  · intro t mt hmt
    change upd s.refMeta chId _ t = some mt at hmt
    simp only [upd] at hmt
    split at hmt
    · cases hmt
      refine ⟨?_, ?_⟩
      · intro p hp
        simp only [Option.some.injEq] at hp
        subst hp
        change (upd (upd s.playerToRefThread p1 chId) p2 chId p1).isSome = true
        by_cases he : p1 = p2
        · rw [he, upd_eq_same]
          rfl
        · exact upd_isSome _ _ _ _ (by rw [upd_eq_same]; rfl)
      · intro p hp
        simp only [Option.some.injEq] at hp
        subst hp
        change (upd (upd s.playerToRefThread p1 chId) p2 chId p2).isSome = true
        rw [upd_eq_same]
        rfl
    · have hold := h2 t mt hmt
      refine ⟨?_, ?_⟩
      · intro p hp
        exact upd_isSome _ _ _ _ (upd_isSome _ _ _ _ (hold.1 p hp))
      · intro p hp
        exact upd_isSome _ _ _ _ (upd_isSome _ _ _ _ (hold.2 p hp))

theorem inv_setIssueHandler (s : V1.V1State) (chId issue tn : String) (rx : V1.RenameExt)
    (h : V1.Inv s) : V1.Inv (V1.setIssueHandler s chId issue tn rx).1 := by
  obtain ⟨h1, h2⟩ := h
  constructor
  · intro u hu
    exact h1 u hu
  · intro t mt hmt
    change upd s.refMeta chId _ t = some mt at hmt
    simp only [upd] at hmt
    split at hmt
    · cases hmt
      cases hm : s.refMeta chId with
      | none =>
        refine ⟨?_, ?_⟩ <;> intro p hp <;> exact absurd hp (by simp [V1.emptyMeta])
      | some mt0 =>
        refine ⟨?_, ?_⟩
        · intro p hp
          simp only [Option.getD_some] at hp
          exact (h2 chId mt0 hm).1 p hp
        · intro p hp
          simp only [Option.getD_some] at hp
          exact (h2 chId mt0 hm).2 p hp
    · exact h2 t mt hmt

theorem reachable_inv {env : V1.Env} {s : V1.V1State} (h : V1.Reachable env s) : V1.Inv s := by
  induction h with
  | init => exact inv_initState
  | step e hr ih =>
    cases e with
    | trigger m tx => exact inv_triggerHandler env _ m tx ih
    | dmMirror m dx => exact ih
    | setPlayers chId p1 p2 tn rx => exact inv_setPlayersHandler _ chId p1 p2 tn rx ih
    | setIssue chId issue tn rx => exact inv_setIssueHandler _ chId issue tn rx ih
    | close chId cx => exact inv_closeHandler env _ chId cx ih

/-- C2: for DMs from non-bot users, the v1 DM mirror forwards the content and
attachment URLs (username-prefixed) to the mapped referee thread when the
sender is mapped and not closed, replies that the dispute is Closed (without
forwarding) when the sender is in `closedPlayers` — in every reachable state a
closed player is mapped, so the check is reached — and does nothing at all
when the sender has no mapping.  The state is never modified. -/
theorem c2_dm_mirror (env : V1.Env) (s : V1.V1State) (m : Msg) (dx : V1.DMExt)
    (hreach : V1.Reachable env s) (hguild : m.guildId = none) (hbot : m.authorIsBot = false)
    (hdm : m.channelIsDM = true) :
    (∀ rid, s.playerToRefThread m.authorId = some rid →
      s.closedPlayers m.authorId = false → dx.threadFetchOk = true →
      V1.dmMirrorHandler s m dx = (s,
        if m.attachments = [] then [Effect.sendMsg rid (V1.dmMirrorContent m)]
        else if dx.fileSendOk then
          [Effect.sendMsgWithFiles rid (V1.dmMirrorContent m) m.attachments]
        else [Effect.sendMsgWithFiles rid (V1.dmMirrorContent m) m.attachments,
              Effect.sendMsg rid
                (V1.dmMirrorContent m ++ "\n(Attachments present but could not be forwarded)")])) ∧
    (s.closedPlayers m.authorId = true →
      V1.dmMirrorHandler s m dx = (s, [Effect.replyMsg m.id V1.closedReplyText])) ∧
    (s.playerToRefThread m.authorId = none → V1.dmMirrorHandler s m dx = (s, [])) := by
  refine ⟨?_, ?_, ?_⟩
  · intro rid hmap hopen hfetch
    simp only [V1.dmMirrorHandler, V1.dmMirrorEffects, hguild, hbot, hdm, hmap, hopen, hfetch]
    simp
  · intro hclosed
    have hmapped := (reachable_inv hreach).1 m.authorId hclosed
    obtain ⟨rid, hmap⟩ := Option.isSome_iff_exists.mp hmapped
    simp only [V1.dmMirrorHandler, V1.dmMirrorEffects, hguild, hbot, hdm, hmap, hclosed]
    simp
  · intro hnone
    simp only [V1.dmMirrorHandler, V1.dmMirrorEffects, hguild, hbot, hdm, hnone]
    simp

/-- C2 witness: in the concrete reachable state where `alice` raised a dispute
mapped to thread `rt1`, her DM is forwarded there with the username prefix. -/
theorem c2_dm_mirror_witness :
    (V1.dmMirrorHandler Fx.s1 Fx.dmAlice Fx.dmExtW).2 =
      [Effect.sendMsg ("rt1") ("📥 **alice (DM):** hello")] := by
  have h := c2_dm_mirror Fx.envW Fx.s1 Fx.dmAlice Fx.dmExtW
    (V1.Reachable.step (V1.Event.trigger Fx.m1 Fx.ext1) V1.Reachable.init) rfl rfl rfl
  have h2 := h.1 ("rt1") (by decide) (by decide) rfl
  have h3 := congrArg Prod.snd h2
  rw [h3]
  decide

/-- C4 counterexample: after `alice`'s dispute (seeded by a concrete trigger)
is `/close`d, every state entry of the dispute still exists — the claim that
the entries no longer exist after `/close` is false. -/
theorem c4_cex :
    Fx.s4.playerToRefThread ("alice") = some ("rt1") ∧
    Fx.s4.refThreadToPlayer ("rt1") = some ("alice") ∧
    (Fx.s4.refMeta ("rt1")).isSome = true ∧
    Fx.s4.refThreadToOrigin ("rt1") = some (("dc"), ("m1")) ∧
    Fx.s4.closedPlayers ("alice") = true := by
  decide

/-- C4 (amended): the map entries of a dispute are inserted on the trigger
message (and also written by `/set_players` and `/set_issue`); `/close`
deletes none of them — it leaves `disputeToRefThread`, `playerToRefThread`,
`refThreadToPlayer`, `refThreadToOrigin` and `refMeta` exactly as they were
and only adds the recorded players of the thread to `closedPlayers` (besides
archiving/locking); the only deletion anywhere is `closedPlayers.delete` on a
new trigger. -/
theorem c4_close_state (env : V1.Env) (s : V1.V1State) (chId : String) (cx : V1.CloseExt) :
    (V1.closeHandler env s chId cx).1.disputeToRefThread = s.disputeToRefThread ∧
    (V1.closeHandler env s chId cx).1.playerToRefThread = s.playerToRefThread ∧
    (V1.closeHandler env s chId cx).1.refThreadToPlayer = s.refThreadToPlayer ∧
    (V1.closeHandler env s chId cx).1.refThreadToOrigin = s.refThreadToOrigin ∧
    (V1.closeHandler env s chId cx).1.refMeta = s.refMeta ∧
    (V1.closeHandler env s chId cx).1.closedPlayers = fun u =>
      s.closedPlayers u ||
        (match s.refMeta chId with
         | some mt => mt.p1Id == some u || mt.p2Id == some u
         | none => false) :=
  ⟨rfl, rfl, rfl, rfl, rfl, rfl⟩

/-- C9: when no opponent country role (a mentioned role with a bracketed name
different from the raiser's own country role) is detected, the trigger handler
only replies asking the player to re-raise and tag the opponent country role:
no referee thread is created and the state is returned unchanged. -/
theorem c9_no_opponent_guard (env : V1.Env) (s : V1.V1State) (m : Msg) (tx : V1.TriggerExt)
    (hguild : m.guildId.isNone = false) (hbot : m.authorIsBot = false)
    (hch : (m.channelId == env.disputeChannelId ||
        m.channelParentId == some env.disputeChannelId) = true)
    (hment : messageMentionsRole m env.triggerRoleId = true)
    (hmf : tx.memberFetchOk = true)
    (hoc : getOpponentCountryFromMessage m.mentionedRoles
        ((getMemberCountry m.authorMemberRoles).map RoleInfo.name) = none) :
    V1.triggerHandler env s m tx = (s, [Effect.replyMsg m.id V1.noOpponentReplyText]) := by
  have hd : V1.triggerDecision env s m tx.memberFetchOk tx.reuseFetchOk =
      V1.TriggerOutcome.noOpponent := by
    simp only [V1.triggerDecision, hguild, hbot, hch, hment, hmf, hoc]
    simp
  simp only [V1.triggerHandler, hd]

/-- C9 witness: the concrete trigger message `m9` (trigger role mentioned, no
bracketed role tagged) only gets the re-raise reply, on an already nonempty
state. -/
theorem c9_no_opponent_guard_witness :
    getOpponentCountryFromMessage Fx.m9.mentionedRoles
      ((getMemberCountry Fx.m9.authorMemberRoles).map RoleInfo.name) = none ∧
    V1.triggerHandler Fx.envW Fx.s1 Fx.m9 Fx.ext1 =
      (Fx.s1, [Effect.replyMsg ("m9") V1.noOpponentReplyText]) :=
  ⟨by decide,
   c9_no_opponent_guard Fx.envW Fx.s1 Fx.m9 Fx.ext1 rfl rfl (by decide) (by decide) rfl (by decide)⟩

/-- C1 counterexample: a non-bot guild message posted in the dispute channel
that mentions the trigger role but tags no opponent country role creates no
referee thread and records no mapping — the claim as stated, with no
opponent-country condition, is false. -/
theorem c1_cex :
    (Fx.m9.channelId == Fx.envW.disputeChannelId ||
      Fx.m9.channelParentId == some Fx.envW.disputeChannelId) = true ∧
    messageMentionsRole Fx.m9 Fx.envW.triggerRoleId = true ∧
    Fx.m9.authorIsBot = false ∧ Fx.m9.guildId.isNone = false ∧
    (V1.triggerHandler Fx.envW V1.initState Fx.m9 Fx.ext1).2 =
      [Effect.replyMsg ("m9") V1.noOpponentReplyText] ∧
    (V1.triggerHandler Fx.envW V1.initState Fx.m9 Fx.ext1).1.playerToRefThread ("alice") =
      none := by
  decide

/-- C1 (amended): for every non-bot guild message posted in the dispute
channel (or a thread under it) that mentions the trigger role and from which
an opponent country role is detected, given the platform calls succeed: the
bot reuses the already-mapped referee thread when the dispute thread was
triggered before and otherwise creates a private referee thread in the hub,
posts the intro message in it, records the author-to-referee-thread and
referee-thread-to-author mappings, and attempts the evidence-questions DM. -/
theorem c1_trigger_flow (env : V1.Env) (s : V1.V1State) (m : Msg) (tx : V1.TriggerExt)
    (ocr : RoleInfo)
    (hguild : m.guildId.isNone = false) (hbot : m.authorIsBot = false)
    (hch : (m.channelId == env.disputeChannelId ||
        m.channelParentId == some env.disputeChannelId) = true)
    (hment : messageMentionsRole m env.triggerRoleId = true)
    (hmf : tx.memberFetchOk = true)
    (hoc : getOpponentCountryFromMessage m.mentionedRoles
        ((getMemberCountry m.authorMemberRoles).map RoleInfo.name) = some ocr)
    (hcreate : tx.createOk = true) (hintro : tx.introOk = true) :
    (∀ rid0, V1.reusedThread s m tx.reuseFetchOk = some rid0 →
      (V1.triggerHandler env s m tx).1.playerToRefThread m.authorId = some rid0 ∧
      (V1.triggerHandler env s m tx).1.refThreadToPlayer rid0 = some m.authorId ∧
      (V1.triggerHandler env s m tx).2 =
        Effect.sendMsg rid0 (V1.buildIntro env (displayName m)
          (getMemberCountry m.authorMemberRoles) (some ocr)) ::
          V1.dmDisputeRaiser m (V1.disputeThreadOf m) tx.dmOk) ∧
    (V1.reusedThread s m tx.reuseFetchOk = none →
      (V1.triggerHandler env s m tx).1.playerToRefThread m.authorId = some tx.newThreadId ∧
      (V1.triggerHandler env s m tx).1.refThreadToPlayer tx.newThreadId = some m.authorId ∧
      (V1.triggerHandler env s m tx).2 =
        Effect.createThread env.refHubChannelId ("Dispute – " ++ displayName m) ::
        Effect.sendMsg tx.newThreadId (V1.buildIntro env (displayName m)
          (getMemberCountry m.authorMemberRoles) (some ocr)) ::
          V1.dmDisputeRaiser m (V1.disputeThreadOf m) tx.dmOk) := by
  have hd : V1.triggerDecision env s m tx.memberFetchOk tx.reuseFetchOk =
      V1.TriggerOutcome.proceed (getMemberCountry m.authorMemberRoles) ocr
        (V1.disputeThreadOf m) (V1.reusedThread s m tx.reuseFetchOk) := by
    simp only [V1.triggerDecision, hguild, hbot, hch, hment, hmf, hoc]
    simp
  constructor
  · intro rid0 hr
    simp only [V1.triggerHandler, hd, hr]
    refine ⟨?_, ?_, ?_⟩
    · rw [seedState_player, upd_eq_same]
    · rw [seedState_thread, upd_eq_same]
    · simp [V1.seedEffects, hintro]
  · intro hr
    simp only [V1.triggerHandler, hd, hr, hcreate, Bool.not_true, Bool.false_eq_true,
      if_false]
    refine ⟨?_, ?_, ?_⟩
    · rw [seedState_player, upd_eq_same]
    · rw [seedState_thread, upd_eq_same]
    · simp [V1.seedEffects, hintro]

set_option maxRecDepth 8000 in
/-- C1 witness: the concrete trigger message `m1` creates thread `rt1`, posts
the intro, records both mappings and sends the DM. -/
theorem c1_trigger_flow_witness :
    (V1.triggerHandler Fx.envW V1.initState Fx.m1 Fx.ext1).1.playerToRefThread ("alice") =
      some ("rt1") ∧
    (V1.triggerHandler Fx.envW V1.initState Fx.m1 Fx.ext1).1.refThreadToPlayer ("rt1") =
      some ("alice") ∧
    (V1.triggerHandler Fx.envW V1.initState Fx.m1 Fx.ext1).2 =
      [Effect.createThread ("hub") ("Dispute – alice"),
       Effect.sendMsg ("rt1") (V1.buildIntro Fx.envW ("alice") (some Fx.roleGB) (some Fx.roleDE)),
       Effect.dmUser ("alice")
         (V1.dmRaiserText ("alice") ("https://discord.com/x/m1"))] := by
  have h := (c1_trigger_flow Fx.envW V1.initState Fx.m1 Fx.ext1 Fx.roleDE
    rfl rfl (by decide) (by decide) rfl (by decide) rfl rfl).2 (by decide)
  refine ⟨h.1, h.2.1, ?_⟩
  rw [h.2.2]
  decide

/-- C3 counterexample: `alice` has two recorded referee threads (`rt1` from a
first trigger, `rt2` from a second, which overwrote her mapping); her DM is
forwarded by a single direct send to `rt2` — the effect list contains no menu
or choice of any kind, so no disambiguation happens. -/
theorem c3_cex :
    Fx.s2.refThreadToPlayer ("rt1") = some ("alice") ∧
    Fx.s2.refThreadToPlayer ("rt2") = some ("alice") ∧
    Fx.s2.playerToRefThread ("alice") = some ("rt2") ∧
    (V1.dmMirrorHandler Fx.s2 Fx.dmAlice Fx.dmExtW).2 =
      [Effect.sendMsg ("rt2") ("📥 **alice (DM):** hello")] := by
  decide

/-- C3 (amended): there is no disambiguation menu and no ambiguity to resolve:
`playerToRefThread` holds at most one referee thread per player — a new
trigger simply overwrites the mapping — and a DM from a mapped, open player is
forwarded only to that single mapped thread. -/
theorem c3_routing (env : V1.Env) (s sd : V1.V1State) (m md : Msg) (tx : V1.TriggerExt)
    (dx : V1.DMExt) (rid : String) (ocr : RoleInfo)
    (hguild : m.guildId.isNone = false) (hbot : m.authorIsBot = false)
    (hch : (m.channelId == env.disputeChannelId ||
        m.channelParentId == some env.disputeChannelId) = true)
    (hment : messageMentionsRole m env.triggerRoleId = true)
    (hmf : tx.memberFetchOk = true)
    (hoc : getOpponentCountryFromMessage m.mentionedRoles
        ((getMemberCountry m.authorMemberRoles).map RoleInfo.name) = some ocr)
    (hthread : m.channelIsThread = false) (hcreate : tx.createOk = true)
    (hdguild : md.guildId = none) (hdbot : md.authorIsBot = false)
    (hddm : md.channelIsDM = true)
    (hmap : sd.playerToRefThread md.authorId = some rid)
    (hopen : sd.closedPlayers md.authorId = false) (hfetch : dx.threadFetchOk = true) :
    (V1.triggerHandler env s m tx).1.playerToRefThread m.authorId = some tx.newThreadId ∧
    ((V1.dmMirrorHandler sd md dx).2.all (fun e =>
      match e with
      | Effect.sendMsg c _ => c == rid
      | Effect.sendMsgWithFiles c _ _ => c == rid
      | _ => false)) = true := by
  constructor
  · have hd : V1.triggerDecision env s m tx.memberFetchOk tx.reuseFetchOk =
        V1.TriggerOutcome.proceed (getMemberCountry m.authorMemberRoles) ocr
          (V1.disputeThreadOf m) (V1.reusedThread s m tx.reuseFetchOk) := by
      simp only [V1.triggerDecision, hguild, hbot, hch, hment, hmf, hoc]
      simp
    have hr : V1.reusedThread s m tx.reuseFetchOk = none := by
      simp [V1.reusedThread, V1.disputeThreadOf, hthread]
    simp only [V1.triggerHandler, hd, hr, hcreate, Bool.not_true, Bool.false_eq_true, if_false]
    rw [seedState_player, upd_eq_same]
  · simp only [V1.dmMirrorHandler, V1.dmMirrorEffects, hdguild, hdbot, hddm, hmap, hopen,
      hfetch]
    by_cases hatt : md.attachments = []
    · simp [hatt]
    · by_cases hfs : dx.fileSendOk
      · simp [hatt, hfs]
      · simp [hatt, hfs]

/-- C3 witness: in the concrete two-dispute state, the second trigger
overwrote the mapping to `rt2` and `alice`'s DM goes only there. -/
theorem c3_routing_witness :
    Fx.s2.playerToRefThread ("alice") = some ("rt2") ∧
    ((V1.dmMirrorHandler Fx.s2 Fx.dmAlice Fx.dmExtW).2.all (fun e =>
      match e with
      | Effect.sendMsg c _ => c == "rt2"
      | Effect.sendMsgWithFiles c _ _ => c == "rt2"
      | _ => false)) = true := by
  have h := c3_routing Fx.envW Fx.s1 Fx.s2 Fx.m2 Fx.dmAlice Fx.ext2 Fx.dmExtW ("rt2") Fx.roleDE
    rfl rfl (by decide) (by decide) rfl (by decide) rfl rfl rfl rfl rfl
    (by decide) (by decide) rfl
  exact ⟨h.1, h.2⟩

/-- C6 counterexample: with an override channel given that is not a guild text
channel (here a voice channel), the `/decision` text is posted into the
referee thread, not into the override channel — the claim that the text is
sent to the override channel whenever one was given is false. -/
theorem c6_cex :
    V3.decisionHandler Fx.metaW Fx.optsW (some ("p1u")) (some Fx.voiceChanW) ("rt9")
        Fx.decExtW =
      [Effect.sendMsg ("rt9") (V3.buildDecisionText Fx.metaW Fx.optsW (some ("p1u"))),
       Effect.interactionReply ("Decision posted.")] ∧
    ((V3.decisionHandler Fx.metaW Fx.optsW (some ("p1u")) (some Fx.voiceChanW) ("rt9")
        Fx.decExtW).all (fun e =>
      match e with
      | Effect.sendMsg c _ => c != "vc1"
      | Effect.sendMsgWithFiles c _ _ => c != "vc1"
      | _ => true)) = true := by
  constructor
  · rfl
  · decide

/-- C6 (amended): a `/decision` with outcome `ns_p1_1` posts the fixed no-show
template — player mentions, review line naming the recorded raiser, the 6.2.4
one-penalty-point ruling, the reminder footer — and the text is sent to the
override channel when one was given and it is a guild text channel, else to
the auto-detected decision channel of the origin guild, else into the referee
thread itself (a non-text override also falls through to the thread). -/
theorem c6_decision_ns_p1_1 (meta : V3.Meta) (opts : V3.DecisionOpts) (r a b : String)
    (override : Option Channel) (chId : String) (dx : V3.DecisionExt)
    (ho : opts.outcome = "ns_p1_1") (hp1 : meta.p1Id = some a) (hp2 : meta.p2Id = some b) :
    (V3.buildDecisionText meta opts (some r) = String.intercalate ("\n")
      ["<@" ++ a ++ ">" ++ " " ++ ("<@" ++ b ++ ">"),
       "After reviewing the match dispute set by " ++ ("<@" ++ r ++ ">") ++ " regarding " ++
         meta.issue.getD ("(issue)") ++ ". The Referees team has decided:",
       "",
       "<@" ++ a ++ ">" ++
         " **failed to show in time**. Subsequent to 6.2.4 the penalty is **1 penalty point**.",
       "The remaining games are to be played.",
       "",
       "We would like to remind all parties involved that referees and staff members from countries involved in disputes cannot be involved in the resolution of the dispute.",
       "",
       "Good luck in your remaining battles."]) ∧
    (∀ c, override = some c → c.kind = ChanKind.guildText →
      V3.decisionHandler meta opts (some r) override chId dx =
        [Effect.sendMsg c.id (V3.buildDecisionText meta opts (some r)),
         Effect.sendMsg chId ("📣 Decision posted to <#" ++ c.id ++ ">."),
         Effect.interactionReply ("Decision posted.")]) ∧
    (∀ dc, override = none → meta.originGuildId.isSome = true → dx.originFetchOk = true →
      findDecisionChannel dx.originChannels (meta.playerCountry.map RoleInfo.name)
        (meta.opponentCountry.map RoleInfo.name) = some dc →
      V3.decisionHandler meta opts (some r) override chId dx =
        [Effect.sendMsg dc.id (V3.buildDecisionText meta opts (some r)),
         Effect.sendMsg chId ("📣 Decision posted to <#" ++ dc.id ++ ">."),
         Effect.interactionReply ("Decision posted.")]) ∧
    (override = none →
      (match meta.originGuildId with
       | some _ =>
         if dx.originFetchOk then
           findDecisionChannel dx.originChannels (meta.playerCountry.map RoleInfo.name)
             (meta.opponentCountry.map RoleInfo.name)
         else none
       | none => none) = none →
      V3.decisionHandler meta opts (some r) override chId dx =
        [Effect.sendMsg chId (V3.buildDecisionText meta opts (some r)),
         Effect.interactionReply ("Decision posted.")]) := by
  refine ⟨?_, ?_, ?_, ?_⟩
  · simp only [V3.buildDecisionText, ho, V3.decisionHeader, V3.mention, hp1, hp2,
      V3.teamRuleLines, V3.formatFooterLines, Option.getD_none]
    simp
  · intro c hov hkind
    simp only [V3.decisionHandler, hov, hkind, if_pos]
  · intro dc hov hog hfetch hfind
    obtain ⟨gid, hg⟩ := Option.isSome_iff_exists.mp hog
    have hkind : dc.kind = ChanKind.guildText := by
      obtain ⟨ca, cb, _, _, _, hk, _, _⟩ := findDecisionChannel_some hfind
      exact hk
    simp only [V3.decisionHandler, hov, hg, hfetch, if_pos, hfind, hkind]
  · intro hov htarget
    simp only [V3.decisionHandler, hov, htarget]

set_option maxRecDepth 8000 in
/-- C6 witness: concrete `/decision ns_p1_1` invocation — exact template text
and auto-detected decision channel routing. -/
theorem c6_decision_ns_p1_1_witness :
    V3.buildDecisionText Fx.metaW Fx.optsW (some ("refRaiser")) =
      "<@p1u> <@p2u>\nAfter reviewing the match dispute set by <@refRaiser> regarding No Show. The Referees team has decided:\n\n<@p1u> **failed to show in time**. Subsequent to 6.2.4 the penalty is **1 penalty point**.\nThe remaining games are to be played.\n\nWe would like to remind all parties involved that referees and staff members from countries involved in disputes cannot be involved in the resolution of the dispute.\n\nGood luck in your remaining battles." ∧
    V3.decisionHandler Fx.metaW Fx.optsW (some ("refRaiser")) none ("rt9") Fx.decExtW =
      [Effect.sendMsg ("tc1") (V3.buildDecisionText Fx.metaW Fx.optsW (some ("refRaiser"))),
       Effect.sendMsg ("rt9") ("📣 Decision posted to <#tc1>."),
       Effect.interactionReply ("Decision posted.")] := by
  have h := c6_decision_ns_p1_1 Fx.metaW Fx.optsW ("refRaiser") ("p1u") ("p2u") none ("rt9")
    Fx.decExtW rfl rfl rfl
  constructor
  · rw [h.1]
    decide
  · have h3 := h.2.2.1 Fx.textChanW rfl rfl rfl (by decide)
    rw [h3]
    decide

end DisputeBot
